import Mathlib

/-!
Verification of the Arcadia payment pipeline.

This file shallowly embeds the payment-relevant parts of the repository:

* the off-chain payment store operations of `src/lib/prisma.ts`
  (`paymentOperations.updateStatus`, `paymentOperations.getByPaymentId`),
* the webhook receiver `POST` of `src/app/api/payments/webhook/route.ts`
  together with its `verifyX402Signature` helper and Node's
  `crypto.timingSafeEqual` semantics,
* the status read path `GET` of `src/app/api/payments/request/route.ts`,
* the smart contract `contracts/VeoPayment.sol` (state, `processPayment`,
  `requestRefund`, the administrative setters, `pause`/`unpause`,
  `emergencyWithdraw`), with EVM revert semantics made explicit: a revert
  returns an error and the caller keeps the pre-call state.

Machine integers are modelled as `Nat` (all the quantities involved are
unsigned and nowhere near overflow: `uint256` arithmetic on wei amounts and
timestamps), addresses as `Nat` with `0` playing the role of `address(0)`.
-/

namespace Arcadia

/-! ## Off-chain data model (Prisma `Payment` rows, `PaymentStatus` enum) -/

/-- The off-chain payment status enum used by the Prisma schema and by
`paymentOperations.updateStatus`. -/
inductive PaymentStatus
  | PENDING
  | PROCESSING
  | COMPLETED
  | FAILED
  | EXPIRED
  | REFUNDED
deriving DecidableEq, Repr

/-- One row of the `payment` table, restricted to the fields the payment
routes read or write.  Timestamps are epoch milliseconds as `Nat`. -/
structure PaymentRecord where
  paymentId : String
  status : PaymentStatus
  briefId : Option String
  brandId : String
  expiresAt : Nat
  completedAt : Option Nat
  transactionHash : Option String
  blockNumber : Option Nat
  gasUsed : Option Nat
deriving DecidableEq, Repr

/-- The payment table, keyed by `paymentId` (which Prisma enforces unique). -/
abbrev Db := List (String × PaymentRecord)

/-- Embeds `prisma.payment.findUnique` keyed by `paymentId`. -/
def dbLookup (db : Db) (pid : String) : Option PaymentRecord :=
  (db.find? (fun e => e.1 == pid)).map Prod.snd

/-- Replace the row keyed `pid` by `r` (Prisma `update` write-back). -/
def dbWrite (db : Db) (pid : String) (r : PaymentRecord) : Db :=
  db.map (fun e => if e.1 == pid then (e.1, r) else e)

/-- Errors thrown by the Prisma client.  `recordNotFound` is Prisma error
P2025: `prisma.payment.update` THROWS when no row matches the `where`
clause — it does not return `null`. -/
inductive DbError
  | recordNotFound
deriving DecidableEq, Repr

/-- Embeds `paymentOperations.updateStatus` (src/lib/prisma.ts, lines 204–238).

It performs a single unconditional `prisma.payment.update` keyed by
`paymentId`: there is NO read of the current status and NO transition
guard of any kind.  `completedAt` is set to `new Date()` exactly when the
new status is `COMPLETED` (Prisma treats `undefined` as "leave
unchanged"), and the optional transaction fields are merged the same way.
Throws `recordNotFound` (P2025) when the row does not exist; otherwise it
returns the updated row together with the new table. -/
def updateStatus (db : Db) (pid : String) (st : PaymentStatus) (now : Nat)
    (txHash : Option String) (blockNum : Option Nat) (gas : Option Nat) :
    Except DbError (PaymentRecord × Db) :=
  match dbLookup db pid with
  | none => .error .recordNotFound
  | some r =>
      let r' : PaymentRecord :=
        { r with
          status := st
          completedAt := if st = .COMPLETED then some now else r.completedAt
          transactionHash := match txHash with
            | some h => some h
            | none => r.transactionHash
          blockNumber := match blockNum with
            | some b => some b
            | none => r.blockNumber
          gasUsed := match gas with
            | some g => some g
            | none => r.gasUsed }
      .ok (r', dbWrite db pid r')

/-! ## Webhook receiver (src/app/api/payments/webhook/route.ts) -/

/-- Node's `crypto.timingSafeEqual` on the UTF-8 bytes of two strings
(`Buffer.from`): it THROWS when the byte lengths differ, and otherwise
reports byte equality. -/
def timingSafeEqual (a b : String) : Except Unit Bool :=
  if a.utf8ByteSize = b.utf8ByteSize then .ok (a == b) else .error ()

/-- Embeds `verifyX402Signature` (webhook route, lines 5–16): recompute the
HMAC-SHA256 hex digest of the raw payload under the shared secret and
compare it with the presented signature using `timingSafeEqual`.  The hash
itself is a Node library primitive, so it enters the model as the
parameter `hmacHex : secret → payload → hex digest`; a real SHA-256 hex
digest always has 64 ASCII characters, hence 64 UTF-8 bytes. -/
def verifyX402Signature (hmacHex : String → String → String)
    (payload signature secret : String) : Except Unit Bool :=
  timingSafeEqual signature (hmacHex secret payload)

/-- The parsed `X402WebhookPayload` (webhook route, lines 19–30),
restricted to the fields the handler uses. -/
structure X402WebhookPayload where
  paymentId : String
  status : PaymentStatus
  transactionHash : Option String
  blockNumber : Option Nat
  gasUsed : Option Nat
deriving DecidableEq, Repr

/-- An inbound webhook HTTP request: the raw body, the
`x-x402-signature` header (absent = `null`), and the result of
`JSON.parse(rawBody)` (`none` models a parse exception). -/
structure WebhookRequest where
  rawBody : String
  signature : Option String
  payload : Option X402WebhookPayload
deriving DecidableEq, Repr

/-- The observable outcome of one webhook delivery: the HTTP status code,
the echoed payment status of a 200 response, the payment table after the
call, and how many downstream generation calls were fired (the `fetch` to
`/api/briefs/generate`). -/
structure WebhookResult where
  httpStatus : Nat
  echoedStatus : Option PaymentStatus
  db : Db
  generationTriggers : Nat
deriving DecidableEq, Repr

/-- The webhook `POST` handler (webhook route, lines 32–143).

Faithful to the source control flow: the guard on the header and the
configured secret is the JS falsy test, so a missing header, a
present-but-EMPTY header value, a missing secret or an empty secret all
answer 400 before any comparison; `verifyX402Signature` throwing (unequal
byte lengths in
`timingSafeEqual`) is caught by the outer `try`/`catch` → 500; signature
mismatch → 401; parse failure → 500; falsy `paymentId` → 400;
`updateStatus` throwing (row not found, Prisma P2025) is caught by the
outer `catch` → 500 — the `if (!updatedPayment)` 404 branch of the source
is unreachable because `prisma.payment.update` never returns `null`.  On
success the handler fires one generation call when the delivered status
is `COMPLETED` and the row has a `briefId`, and answers 200 echoing the
delivered status.  The generation call's own failure is swallowed. -/
def webhookPOST (hmacHex : String → String → String) (secret : Option String)
    (db : Db) (now : Nat) (req : WebhookRequest) : WebhookResult :=
  match req.signature, secret with
  | none, _ => ⟨400, none, db, 0⟩
  | some _, none => ⟨400, none, db, 0⟩
  | some sig, some sec =>
    if sig = "" ∨ sec = "" then ⟨400, none, db, 0⟩
    else
    match verifyX402Signature hmacHex req.rawBody sig sec with
    | .error _ => ⟨500, none, db, 0⟩
    | .ok false => ⟨401, none, db, 0⟩
    | .ok true =>
      match req.payload with
      | none => ⟨500, none, db, 0⟩
      | some p =>
        if p.paymentId = "" then ⟨400, none, db, 0⟩
        else
          match updateStatus db p.paymentId p.status now
              p.transactionHash p.blockNumber p.gasUsed with
          | .error _ => ⟨500, none, db, 0⟩
          | .ok (updated, db') =>
            ⟨200, some p.status, db',
              if p.status = .COMPLETED ∧ updated.briefId.isSome then 1 else 0⟩

/-! ## Status read path (src/app/api/payments/request/route.ts, `GET`) -/

/-- Response of the `GET /api/payments/request` status endpoint. -/
inductive GetStatusResponse
  | badRequest
  | notFound
  | ok (status : PaymentStatus) (expiresAt : Nat) (completedAt : Option Nat)
deriving DecidableEq, Repr

/-- The `GET` handler (request route, lines 119–168): answer 400 when the
`paymentId` query parameter is absent or empty, 404 when no row exists,
and otherwise echo the STORED row verbatim.  The handler never reads a
clock and performs no comparison of `expiresAt` against the current time:
the returned status is exactly `payment.status` as stored. -/
def paymentsGET (db : Db) (paymentId : Option String) : GetStatusResponse :=
  match paymentId with
  | none => .badRequest
  | some pid =>
    if pid = "" then .badRequest
    else
      match dbLookup db pid with
      | none => .notFound
      | some p => .ok p.status p.expiresAt p.completedAt

/-! ## The escrow contract (contracts/VeoPayment.sol)

EVM semantics made explicit: each external function is a partial map from
(pre-state, call arguments) to post-state; a `require` failure reverts the
whole call, so it is modelled as `Except.error` and the caller keeps the
pre-state.  External `call{value: v}` transfers are modelled by a boolean
"the recipient accepts" supplied with the call, plus the balance check the
EVM performs; on function entry the contract's balance already includes
`msg.value`.  Addresses are `Nat`, `0` standing for `address(0)`. -/

/-- The `PaymentTier` enum of `VeoPayment.sol`. -/
inductive PaymentTier
  | BASIC
  | PREMIUM
  | ENTERPRISE
deriving DecidableEq, Repr

/-- The on-chain `Payment` struct. -/
structure SolPayment where
  payer : Nat
  amount : Nat
  tier : PaymentTier
  paymentId : String
  completed : Bool
  timestamp : Nat
deriving DecidableEq, Repr

/-- The default value a Solidity `mapping(string => Payment)` yields for an
absent key: every field zeroed. -/
def emptySolPayment : SolPayment :=
  { payer := 0, amount := 0, tier := .BASIC, paymentId := "", completed := false,
    timestamp := 0 }

/-- The contract storage of `VeoPayment`, plus the contract's ETH balance
and the `Pausable`/`Ownable` state it inherits.  The `tierPrices` mapping
is split into its three possible keys. -/
structure ContractState where
  payments : List (String × SolPayment)
  basicPrice : Nat
  premiumPrice : Nat
  enterprisePrice : Nat
  paymentIds : List String
  userPaymentCount : List (Nat × Nat)
  totalPaymentsReceived : Nat
  totalAmountCollected : Nat
  treasuryWallet : Nat
  refundWindow : Nat
  paused : Bool
  owner : Nat
  balance : Nat
deriving DecidableEq, Repr

/-- Read of the `payments` mapping: first matching entry, or the zeroed
struct for an absent key (Solidity mapping default). -/
def paymentsLookup (s : ContractState) (pid : String) : SolPayment :=
  match s.payments.find? (fun e => e.1 == pid) with
  | some e => e.2
  | none => emptySolPayment

/-- Read of the `tierPrices` mapping / the `getTierPrice` view function. -/
def getTierPrice (s : ContractState) : PaymentTier → Nat
  | .BASIC => s.basicPrice
  | .PREMIUM => s.premiumPrice
  | .ENTERPRISE => s.enterprisePrice

/-- Write to the `tierPrices` mapping. -/
def setTierPriceMap (s : ContractState) (tier : PaymentTier) (p : Nat) :
    ContractState :=
  match tier with
  | .BASIC => { s with basicPrice := p }
  | .PREMIUM => { s with premiumPrice := p }
  | .ENTERPRISE => { s with enterprisePrice := p }

/-- Read of the `userPaymentCount` mapping (default 0). -/
def countLookup (l : List (Nat × Nat)) (a : Nat) : Nat :=
  match l.find? (fun e => e.1 == a) with
  | some e => e.2
  | none => 0

/-- The distinct `require` messages of `VeoPayment.sol`, plus the implicit
revert reasons of its inherited modifiers. -/
inductive Revert
  | enforcedPause
  | expectedPause
  | callerNotOwner
  | invalidPaymentId
  | incorrectPaymentAmount
  | paymentIdAlreadyExists
  | treasuryTransferFailed
  | notYourPayment
  | paymentNotCompleted
  | refundWindowExpired
  | refundTransferFailed
  | priceMustBePositive
  | invalidTreasuryAddress
  | windowMustBePositive
  | noBalanceToWithdraw
  | emergencyWithdrawalFailed
deriving DecidableEq, Repr

/-- Embeds `processPayment(paymentId, tier)` (VeoPayment.sol lines 79–114),
`payable nonReentrant whenNotPaused`.

Checks, in source order: the `whenNotPaused` modifier, non-empty
`paymentId`, `msg.value == tierPrices[tier]`, unused id
(`payments[paymentId].payer == address(0)`).  Then it records the payment
with `completed = true` and `timestamp = block.timestamp`, updates the
tracking fields, and forwards the full `msg.value` to the treasury — a
failing treasury call reverts the whole transaction, so the net balance
change of a successful call is zero (`+msg.value` on entry, `-msg.value`
forwarded). -/
def processPayment (s : ContractState) (sender value : Nat) (paymentId : String)
    (tier : PaymentTier) (blockTimestamp : Nat) (treasuryAccepts : Bool) :
    Except Revert ContractState :=
  if s.paused then .error .enforcedPause
  else if paymentId = "" then .error .invalidPaymentId
  else if value ≠ getTierPrice s tier then .error .incorrectPaymentAmount
  else if (paymentsLookup s paymentId).payer ≠ 0 then
    .error .paymentIdAlreadyExists
  else if ¬ treasuryAccepts then .error .treasuryTransferFailed
  else
    .ok { s with
      payments := (paymentId,
        { payer := sender, amount := value, tier := tier, paymentId := paymentId,
          completed := true, timestamp := blockTimestamp }) :: s.payments
      paymentIds := s.paymentIds ++ [paymentId]
      userPaymentCount :=
        (sender, countLookup s.userPaymentCount sender + 1) ::
          s.userPaymentCount.filter (fun e => e.1 ≠ sender)
      totalPaymentsReceived := s.totalPaymentsReceived + 1
      totalAmountCollected := s.totalAmountCollected + value
      balance := s.balance }

/-- Embeds `requestRefund(paymentId)` (VeoPayment.sol lines 120–137),
`nonReentrant`.

Checks, in source order: the caller is the recorded payer, the payment is
still `completed`, and `block.timestamp <= payment.timestamp +
refundWindow` — against the CURRENT `refundWindow`, not a per-payment
snapshot.  Then it flips `completed` to `false` and sends
`payment.amount` back to the caller out of the contract's own balance; a
failing transfer (insufficient balance or a rejecting recipient) reverts
everything. -/
def requestRefund (s : ContractState) (sender : Nat) (paymentId : String)
    (blockTimestamp : Nat) (senderAccepts : Bool) : Except Revert ContractState :=
  let payment := paymentsLookup s paymentId
  if payment.payer ≠ sender then .error .notYourPayment
  else if ¬ payment.completed then .error .paymentNotCompleted
  else if ¬ (blockTimestamp ≤ payment.timestamp + s.refundWindow) then
    .error .refundWindowExpired
  else if ¬ (senderAccepts ∧ payment.amount ≤ s.balance) then
    .error .refundTransferFailed
  else
    .ok { s with
      payments := (paymentId, { payment with completed := false }) :: s.payments
      balance := s.balance - payment.amount }

/-- Embeds `updateTierPrice(tier, newPrice)` (VeoPayment.sol lines 144–148),
`onlyOwner`; requires a positive price. -/
def updateTierPrice (s : ContractState) (sender : Nat) (tier : PaymentTier)
    (newPrice : Nat) : Except Revert ContractState :=
  if sender ≠ s.owner then .error .callerNotOwner
  else if ¬ (0 < newPrice) then .error .priceMustBePositive
  else .ok (setTierPriceMap s tier newPrice)

/-- Embeds `updateTreasuryWallet(newTreasury)` (VeoPayment.sol lines 154–157),
`onlyOwner`; requires a non-zero address. -/
def updateTreasuryWallet (s : ContractState) (sender : Nat) (newTreasury : Nat) :
    Except Revert ContractState :=
  if sender ≠ s.owner then .error .callerNotOwner
  else if newTreasury = 0 then .error .invalidTreasuryAddress
  else .ok { s with treasuryWallet := newTreasury }

/-- Embeds `updateRefundWindow(newWindow)` (VeoPayment.sol lines 163–166),
`onlyOwner`; requires a positive window. -/
def updateRefundWindow (s : ContractState) (sender : Nat) (newWindow : Nat) :
    Except Revert ContractState :=
  if sender ≠ s.owner then .error .callerNotOwner
  else if ¬ (0 < newWindow) then .error .windowMustBePositive
  else .ok { s with refundWindow := newWindow }

/-- Embeds `pause()` (VeoPayment.sol lines 215–217): `onlyOwner`, and OpenZeppelin
`_pause` carries `whenNotPaused`. -/
def pause (s : ContractState) (sender : Nat) : Except Revert ContractState :=
  if sender ≠ s.owner then .error .callerNotOwner
  else if s.paused then .error .enforcedPause
  else .ok { s with paused := true }

/-- Embeds `unpause()` (VeoPayment.sol lines 222–224): `onlyOwner`, and OpenZeppelin
`_unpause` carries `whenPaused`. -/
def unpause (s : ContractState) (sender : Nat) : Except Revert ContractState :=
  if sender ≠ s.owner then .error .callerNotOwner
  else if ¬ s.paused then .error .expectedPause
  else .ok { s with paused := false }

/-- Embeds `emergencyWithdraw()` (VeoPayment.sol lines 229–235): `onlyOwner`,
requires a positive balance, sweeps the full balance to the owner. -/
def emergencyWithdraw (s : ContractState) (sender : Nat) (ownerAccepts : Bool) :
    Except Revert ContractState :=
  if sender ≠ s.owner then .error .callerNotOwner
  else if s.balance = 0 then .error .noBalanceToWithdraw
  else if ¬ ownerAccepts then .error .emergencyWithdrawalFailed
  else .ok { s with balance := 0 }

/-- Embeds the `getPayment(paymentId)` view (VeoPayment.sol lines 172–187). -/
def getPayment (s : ContractState) (pid : String) :
    Nat × Nat × PaymentTier × Bool × Nat :=
  let p := paymentsLookup s pid
  (p.payer, p.amount, p.tier, p.completed, p.timestamp)

/-- Whether a contract call reverted. -/
def isRevert (r : Except Revert ContractState) : Bool :=
  match r with
  | .error _ => true
  | .ok _ => false

/-- Whether a contract call succeeded. -/
def isOkCall (r : Except Revert ContractState) : Bool :=
  match r with
  | .error _ => false
  | .ok _ => true

/-! ### Transactions and traces

To speak about "any second call ever", the external call surface is closed
into one step relation: a reverting call leaves the state unchanged (EVM
transaction semantics), a succeeding call installs the new state. -/

/-- One external call to `VeoPayment`, with its sender, attached value,
arguments, block timestamp, and the acceptance outcomes of any outbound
transfers it performs. -/
inductive ContractOp
  | procPay (sender value : Nat) (pid : String) (tier : PaymentTier)
      (t : Nat) (tok : Bool)
  | refund (sender : Nat) (pid : String) (t : Nat) (sok : Bool)
  | setPrice (sender : Nat) (tier : PaymentTier) (p : Nat)
  | setTreasury (sender : Nat) (a : Nat)
  | setWindow (sender : Nat) (w : Nat)
  | doPause (sender : Nat)
  | doUnpause (sender : Nat)
  | emergWithdraw (sender : Nat) (ok : Bool)
deriving DecidableEq, Repr

/-- Dispatch one external call. -/
def applyOp (s : ContractState) : ContractOp → Except Revert ContractState
  | .procPay sender value pid tier t tok =>
      processPayment s sender value pid tier t tok
  | .refund sender pid t sok => requestRefund s sender pid t sok
  | .setPrice sender tier p => updateTierPrice s sender tier p
  | .setTreasury sender a => updateTreasuryWallet s sender a
  | .setWindow sender w => updateRefundWindow s sender w
  | .doPause sender => pause s sender
  | .doUnpause sender => unpause s sender
  | .emergWithdraw sender ok => emergencyWithdraw s sender ok

/-- Execute one external call as a transaction: a revert leaves the
contract state unchanged. -/
def execOp (s : ContractState) (op : ContractOp) : ContractState :=
  match applyOp s op with
  | .ok s' => s'
  | .error _ => s

/-- Execute a sequence of external calls. -/
def execTrace (s : ContractState) (ops : List ContractOp) : ContractState :=
  ops.foldl execOp s

/-! ## Helper lemmas about the contract -/

/-- A reverting call, run as a transaction, leaves the state unchanged. -/
theorem execOp_of_revert (s : ContractState) (op : ContractOp)
    (h : isRevert (applyOp s op) = true) : execOp s op = s := by
  unfold execOp
  unfold isRevert at h
  cases happ : applyOp s op with
  | ok s' => rw [happ] at h; simp at h
  | error e => simp

/-- A successful call, run as a transaction, installs the returned state. -/
theorem execOp_of_ok (s s' : ContractState) (op : ContractOp)
    (h : applyOp s op = .ok s') : execOp s op = s' := by
  unfold execOp
  rw [h]

/-- A successful `processPayment` records the sender as the payer of its
`paymentId`. -/
theorem processPayment_ok_payer (s : ContractState) (sender value : Nat)
    (pid : String) (tier : PaymentTier) (t : Nat) (tok : Bool)
    (s₁ : ContractState)
    (h : processPayment s sender value pid tier t tok = .ok s₁) :
    (paymentsLookup s₁ pid).payer = sender := by
  unfold processPayment at h
  split_ifs at h
  injection h with h
  subst h
  simp [paymentsLookup, List.find?]

/-- Once a `paymentId` has a non-zero payer, `processPayment` with that id
always reverts (the duplicate-id `require`, unless an earlier `require`
fires first). -/
theorem processPayment_dup_reverts (s : ContractState) (pid : String)
    (h : (paymentsLookup s pid).payer ≠ 0)
    (sender value : Nat) (tier : PaymentTier) (t : Nat) (tok : Bool) :
    isRevert (processPayment s sender value pid tier t tok) = true := by
  unfold processPayment
  split_ifs with h1 h2 h3 <;> simp [isRevert]

/-- No external call can zero out a recorded payer: `processPayment`
refuses the duplicate id, `requestRefund` preserves the payer field, and
every other operation leaves the payments mapping untouched. -/
theorem payer_nonzero_execOp (s : ContractState) (pid : String)
    (op : ContractOp) (h : (paymentsLookup s pid).payer ≠ 0) :
    (paymentsLookup (execOp s op) pid).payer ≠ 0 := by
  cases happ : applyOp s op with
  | error e =>
      rw [execOp_of_revert s op (by simp [isRevert, happ])]
      exact h
  | ok s' =>
      rw [execOp_of_ok s s' op happ]
      cases op with
      | procPay sender value pid' tier t tok =>
          simp only [applyOp] at happ
          unfold processPayment at happ
          split_ifs at happ with h1 h2 h3 h4 h5
          injection happ with happ
          subst happ
          by_cases hpp : pid' = pid
          · subst hpp; exact absurd h (by simpa using h4)
          · have hb : (pid' == pid) = false := by simpa using hpp
            simpa [paymentsLookup, List.find?, hb] using h
      | refund sender pid' t sok =>
          simp only [applyOp] at happ
          simp only [requestRefund] at happ
          split_ifs at happ with h1 h2 h3 h4
          injection happ with happ
          subst happ
          by_cases hpp : pid' = pid
          · subst hpp
            simpa [paymentsLookup, List.find?] using h
          · have hb : (pid' == pid) = false := by simpa using hpp
            simpa [paymentsLookup, List.find?, hb] using h
      | setPrice sender tier p =>
          simp only [applyOp] at happ
          unfold updateTierPrice at happ
          split_ifs at happ
          injection happ with happ
          subst happ
          cases tier <;> simpa [setTierPriceMap, paymentsLookup] using h
      | setTreasury sender a =>
          simp only [applyOp] at happ
          unfold updateTreasuryWallet at happ
          split_ifs at happ
          injection happ with happ
          subst happ
          simpa [paymentsLookup] using h
      | setWindow sender w =>
          simp only [applyOp] at happ
          unfold updateRefundWindow at happ
          split_ifs at happ
          injection happ with happ
          subst happ
          simpa [paymentsLookup] using h
      | doPause sender =>
          simp only [applyOp] at happ
          unfold pause at happ
          split_ifs at happ
          injection happ with happ
          subst happ
          simpa [paymentsLookup] using h
      | doUnpause sender =>
          simp only [applyOp] at happ
          unfold unpause at happ
          split_ifs at happ
          injection happ with happ
          subst happ
          simpa [paymentsLookup] using h
      | emergWithdraw sender ok =>
          simp only [applyOp] at happ
          unfold emergencyWithdraw at happ
          split_ifs at happ
          injection happ with happ
          subst happ
          simpa [paymentsLookup] using h

/-- The non-zero-payer invariant is preserved by every trace of external
calls. -/
theorem payer_nonzero_execTrace (pid : String) (ops : List ContractOp)
    (s : ContractState) (h : (paymentsLookup s pid).payer ≠ 0) :
    (paymentsLookup (execTrace s ops) pid).payer ≠ 0 := by
  induction ops generalizing s with
  | nil => simpa [execTrace] using h
  | cons op ops ih =>
      have := payer_nonzero_execOp s pid op h
      simpa [execTrace] using ih (execOp s op) (by simpa using this)

/-- Refund eligibility depends only on the payments mapping, the refund
window and the contract balance, so two states agreeing on those three
fields give `requestRefund` the same success/revert outcome. -/
theorem requestRefund_isOk_congr (s s₁ : ContractState)
    (hp : s₁.payments = s.payments) (hw : s₁.refundWindow = s.refundWindow)
    (hb : s₁.balance = s.balance) (rs : Nat) (rpid : String) (rt : Nat)
    (rok : Bool) :
    isOkCall (requestRefund s₁ rs rpid rt rok)
      = isOkCall (requestRefund s rs rpid rt rok) := by
  simp only [requestRefund, paymentsLookup, hp, hw, hb]
  split_ifs <;> simp [isOkCall]

/-! ## Claims about the contract -/

/-- C4: for every paymentId, at most one `processPayment` call with that id
ever succeeds on-chain; after one success, any later `processPayment` with
the same id — after an arbitrary sequence of further external calls —
reverts and leaves the contract state unchanged. -/
theorem processPayment_at_most_once
    (s : ContractState) (sender value : Nat) (pid : String) (tier : PaymentTier)
    (t : Nat) (tok : Bool)
    (hsender : sender ≠ 0)
    (hok : isOkCall (processPayment s sender value pid tier t tok) = true)
    (ops : List ContractOp) (sender' value' : Nat) (tier' : PaymentTier)
    (t' : Nat) (tok' : Bool) :
    isRevert (processPayment
        (execTrace (execOp s (.procPay sender value pid tier t tok)) ops)
        sender' value' pid tier' t' tok') = true
    ∧ execOp (execTrace (execOp s (.procPay sender value pid tier t tok)) ops)
        (.procPay sender' value' pid tier' t' tok')
      = execTrace (execOp s (.procPay sender value pid tier t tok)) ops := by
  obtain ⟨s₁, hs₁⟩ : ∃ s₁, processPayment s sender value pid tier t tok = .ok s₁ := by
    cases hc : processPayment s sender value pid tier t tok with
    | ok s₁ => exact ⟨s₁, rfl⟩
    | error e => rw [hc] at hok; simp [isOkCall] at hok
  have hexec : execOp s (.procPay sender value pid tier t tok) = s₁ :=
    execOp_of_ok s s₁ _ (by simpa [applyOp] using hs₁)
  have hpayer₁ : (paymentsLookup s₁ pid).payer = sender :=
    processPayment_ok_payer s sender value pid tier t tok s₁ hs₁
  have hnz : (paymentsLookup s₁ pid).payer ≠ 0 := by rw [hpayer₁]; exact hsender
  have hnz' := payer_nonzero_execTrace pid ops s₁ hnz
  rw [hexec]
  refine ⟨processPayment_dup_reverts _ pid hnz' sender' value' tier' t' tok', ?_⟩
  exact execOp_of_revert _ _ (by
    simpa [applyOp] using
      processPayment_dup_reverts _ pid hnz' sender' value' tier' t' tok')

/-- The contract state as deployed by the constructor with owner `7` and
treasury wallet `9`: constructor tier prices, 24-hour refund window, not
paused, empty ledger. -/
def deployedState : ContractState :=
  { payments := [], basicPrice := 5000000000000000,
    premiumPrice := 10000000000000000, enterprisePrice := 25000000000000000,
    paymentIds := [], userPaymentCount := [], totalPaymentsReceived := 0,
    totalAmountCollected := 0, treasuryWallet := 9, refundWindow := 86400,
    paused := false, owner := 7, balance := 0 }

/-- Witness for C4 at a concrete input: payer 1 pays 0.005 ETH for BASIC
under id "pay-1"; a repeat of the same id immediately afterwards reverts
without touching the state. -/
theorem processPayment_at_most_once_witness :
    (1 : Nat) ≠ 0
    ∧ isOkCall (processPayment deployedState 1 5000000000000000 "pay-1"
        PaymentTier.BASIC 100 true) = true
    ∧ (isRevert (processPayment
          (execTrace (execOp deployedState
            (ContractOp.procPay 1 5000000000000000 "pay-1" PaymentTier.BASIC
              100 true)) [])
          1 5000000000000000 "pay-1" PaymentTier.BASIC 200 true) = true
      ∧ execOp (execTrace (execOp deployedState
            (ContractOp.procPay 1 5000000000000000 "pay-1" PaymentTier.BASIC
              100 true)) [])
          (ContractOp.procPay 1 5000000000000000 "pay-1" PaymentTier.BASIC
            200 true)
        = execTrace (execOp deployedState
            (ContractOp.procPay 1 5000000000000000 "pay-1" PaymentTier.BASIC
              100 true)) []) :=
  ⟨by decide, by decide,
    processPayment_at_most_once deployedState 1 5000000000000000 "pay-1"
      PaymentTier.BASIC 100 true (by decide) (by decide) [] 1 5000000000000000
      PaymentTier.BASIC 200 true⟩

/-- C5: with the other preconditions met (not paused, non-empty fresh id,
accepting treasury), `processPayment` succeeds iff the attached value
exactly equals `getTierPrice(tier)` at call time; and any call whose value
differs from the current tier price reverts and, as a transaction, leaves
the state unchanged. -/
theorem processPayment_exact_amount
    (s : ContractState) (sender value : Nat) (pid : String) (tier : PaymentTier)
    (t : Nat)
    (hpause : s.paused = false) (hpid : pid ≠ "")
    (hfresh : (paymentsLookup s pid).payer = 0) :
    (isOkCall (processPayment s sender value pid tier t true) = true
      ↔ value = getTierPrice s tier)
    ∧ ∀ (s' : ContractState) (sender' v : Nat) (pid' : String)
        (tier' : PaymentTier) (t' : Nat) (tok' : Bool),
        v ≠ getTierPrice s' tier' →
          isRevert (processPayment s' sender' v pid' tier' t' tok') = true
          ∧ execOp s' (.procPay sender' v pid' tier' t' tok') = s' := by
  constructor
  · unfold processPayment
    by_cases hv : value = getTierPrice s tier
    · simp [hpause, hpid, hfresh, hv, isOkCall]
    · simp [hpause, hpid, hfresh, hv, isOkCall]
  · intro s' sender' v pid' tier' t' tok' hv
    have hrev : isRevert (processPayment s' sender' v pid' tier' t' tok') = true := by
      unfold processPayment
      split_ifs <;> simp [isRevert]
    exact ⟨hrev, execOp_of_revert _ _ (by simpa [applyOp] using hrev)⟩

/-- Witness for C5 at a concrete input: on the freshly deployed contract,
paying 0.005 ETH for BASIC under "pay-1" succeeds, and paying
0.004 ETH reverts leaving the state unchanged. -/
theorem processPayment_exact_amount_witness :
    deployedState.paused = false
    ∧ "pay-1" ≠ ""
    ∧ (paymentsLookup deployedState "pay-1").payer = 0
    ∧ (isOkCall (processPayment deployedState 1 5000000000000000 "pay-1"
          PaymentTier.BASIC 100 true) = true
        ↔ (5000000000000000 : Nat) = getTierPrice deployedState PaymentTier.BASIC)
    ∧ ((4000000000000000 : Nat) ≠ getTierPrice deployedState PaymentTier.BASIC →
        isRevert (processPayment deployedState 1 4000000000000000 "pay-1"
          PaymentTier.BASIC 100 true) = true
        ∧ execOp deployedState (ContractOp.procPay 1 4000000000000000 "pay-1"
            PaymentTier.BASIC 100 true) = deployedState) :=
  ⟨by decide, by decide, by decide,
    (processPayment_exact_amount deployedState 1 5000000000000000 "pay-1"
      PaymentTier.BASIC 100 (by decide) (by decide) (by decide)).1,
    fun hv =>
      (processPayment_exact_amount deployedState 1 5000000000000000 "pay-1"
        PaymentTier.BASIC 100 (by decide) (by decide) (by decide)).2
        deployedState 1 4000000000000000 "pay-1" PaymentTier.BASIC 100 true hv⟩

/-- C6: for every recorded payment, `requestRefund` succeeds only when the
caller is the original payer and the call time is at most the payment's
creation timestamp plus the (current) refund window; whenever that
condition fails, the call reverts. -/
theorem requestRefund_payer_and_window
    (s : ContractState) (sender : Nat) (pid : String) (t : Nat) (sok : Bool)
    (hrec : (paymentsLookup s pid).payer ≠ 0) :
    (isOkCall (requestRefund s sender pid t sok) = true →
      sender = (paymentsLookup s pid).payer
        ∧ t ≤ (paymentsLookup s pid).timestamp + s.refundWindow)
    ∧ (¬ (sender = (paymentsLookup s pid).payer
          ∧ t ≤ (paymentsLookup s pid).timestamp + s.refundWindow) →
        isRevert (requestRefund s sender pid t sok) = true) := by
  constructor
  · intro hok
    simp only [requestRefund] at hok
    split_ifs at hok with h1 h2 h3 h4 <;> simp [isOkCall] at hok
    exact ⟨(not_ne_iff.mp h1).symm, h3⟩
  · intro hcond
    simp only [requestRefund]
    by_cases h1 : (paymentsLookup s pid).payer ≠ sender
    · simp [h1, isRevert]
    · have hsend : sender = (paymentsLookup s pid).payer := (not_ne_iff.mp h1).symm
      have ht : ¬ (t ≤ (paymentsLookup s pid).timestamp + s.refundWindow) :=
        fun hle => hcond ⟨hsend, hle⟩
      by_cases h2 : (paymentsLookup s pid).completed
      · simp [h1, h2, ht, isRevert]
      · simp [h1, h2, isRevert]

/-- A deployed contract holding one completed BASIC payment by payer 1 at
timestamp 0 under id "pay-1", with the contract pre-funded so that a
refund transfer can succeed. -/
def fundedPaidState : ContractState :=
  { payments := [("pay-1",
      { payer := 1, amount := 5000000000000000, tier := .BASIC,
        paymentId := "pay-1", completed := true, timestamp := 0 })],
    basicPrice := 5000000000000000, premiumPrice := 10000000000000000,
    enterprisePrice := 25000000000000000, paymentIds := ["pay-1"],
    userPaymentCount := [(1, 1)], totalPaymentsReceived := 1,
    totalAmountCollected := 5000000000000000, treasuryWallet := 9,
    refundWindow := 86400, paused := false, owner := 7,
    balance := 5000000000000000 }

/-- Witness for C6 at a concrete input: on `fundedPaidState`, a refund
attempt by a stranger (address 2) at time 100 falls outside the
payer-and-window condition and reverts. -/
theorem requestRefund_payer_and_window_witness :
    (paymentsLookup fundedPaidState "pay-1").payer ≠ 0
    ∧ ¬ ((2 : Nat) = (paymentsLookup fundedPaidState "pay-1").payer
        ∧ 100 ≤ (paymentsLookup fundedPaidState "pay-1").timestamp
            + fundedPaidState.refundWindow)
    ∧ isRevert (requestRefund fundedPaidState 2 "pay-1" 100 true) = true :=
  ⟨by decide, by decide,
    (requestRefund_payer_and_window fundedPaidState 2 "pay-1" 100 true
      (by decide)).2 (by decide)⟩

/-- C8 counterexample: the administrative updates are not all without
effect on already-recorded payments.  On `fundedPaidState` (payment
created at time 0, refund window 24h) the payer's refund at time 7200
succeeds; after the owner shrinks the refund window to 3600 seconds, the
very same refund call reverts — `updateRefundWindow` changed the refund
eligibility of an already-recorded payment. -/
theorem adminUpdates_refundWindow_counterexample :
    isOkCall (updateRefundWindow fundedPaidState 7 3600) = true
    ∧ isOkCall (requestRefund fundedPaidState 1 "pay-1" 7200 true) = true
    ∧ isRevert (requestRefund (execOp fundedPaidState (.setWindow 7 3600))
        1 "pay-1" 7200 true) = true := by
  decide

/-- C8 amended: the administrative updates are effective immediately for
subsequent calls and leave all stored payment records untouched;
`updateTierPrice` and `updateTreasuryWallet` moreover leave the outcome of
`requestRefund` on already-recorded payments unchanged, while
`updateRefundWindow` (stored records still untouched) does alter refund
eligibility, since `requestRefund` reads the current window. -/
theorem adminUpdates_frame (s : ContractState) (sender : Nat) :
    (∀ tier newPrice s₁, updateTierPrice s sender tier newPrice = .ok s₁ →
      s₁.payments = s.payments
      ∧ getTierPrice s₁ tier = newPrice
      ∧ ∀ rs rpid rt rok, isOkCall (requestRefund s₁ rs rpid rt rok)
          = isOkCall (requestRefund s rs rpid rt rok))
    ∧ (∀ a s₁, updateTreasuryWallet s sender a = .ok s₁ →
      s₁.payments = s.payments
      ∧ s₁.treasuryWallet = a
      ∧ ∀ rs rpid rt rok, isOkCall (requestRefund s₁ rs rpid rt rok)
          = isOkCall (requestRefund s rs rpid rt rok))
    ∧ (∀ w s₁, updateRefundWindow s sender w = .ok s₁ →
      s₁.payments = s.payments ∧ s₁.refundWindow = w) := by
  refine ⟨?_, ?_, ?_⟩
  · intro tier newPrice s₁ h
    unfold updateTierPrice at h
    split_ifs at h
    injection h with h
    subst h
    cases tier <;>
      (refine ⟨rfl, rfl, fun rs rpid rt rok =>
        requestRefund_isOk_congr s _ ?_ ?_ ?_ rs rpid rt rok⟩) <;> rfl
  · intro a s₁ h
    unfold updateTreasuryWallet at h
    split_ifs at h
    injection h with h
    subst h
    refine ⟨rfl, rfl, fun rs rpid rt rok =>
      requestRefund_isOk_congr s _ ?_ ?_ ?_ rs rpid rt rok⟩ <;> rfl
  · intro w s₁ h
    unfold updateRefundWindow at h
    split_ifs at h
    injection h with h
    subst h
    exact ⟨rfl, rfl⟩

/-- Witness for the amended C8 at a concrete input: the owner raises the
BASIC price on `fundedPaidState`; the stored payments are untouched, the
new price is effective immediately, and the payer's refund eligibility is
unchanged. -/
theorem adminUpdates_frame_witness :
    updateTierPrice fundedPaidState 7 PaymentTier.BASIC 6000000000000000
      = .ok (setTierPriceMap fundedPaidState PaymentTier.BASIC 6000000000000000)
    ∧ (setTierPriceMap fundedPaidState PaymentTier.BASIC
        6000000000000000).payments = fundedPaidState.payments
    ∧ getTierPrice (setTierPriceMap fundedPaidState PaymentTier.BASIC
        6000000000000000) PaymentTier.BASIC = 6000000000000000
    ∧ isOkCall (requestRefund (setTierPriceMap fundedPaidState
          PaymentTier.BASIC 6000000000000000) 1 "pay-1" 7200 true)
      = isOkCall (requestRefund fundedPaidState 1 "pay-1" 7200 true) := by
  have h := (adminUpdates_frame fundedPaidState 7).1 PaymentTier.BASIC
    6000000000000000 (setTierPriceMap fundedPaidState PaymentTier.BASIC
      6000000000000000) rfl
  exact ⟨rfl, h.1, h.2.1, h.2.2 1 "pay-1" 7200 true⟩

/-! ## Claims about the webhook reconciler and the status read path -/

/-- A 64-character hex-digest-shaped string (the length of a real
HMAC-SHA256 hex digest). -/
def sig64 : String := "aaaaaaaaaaaaaaaaaaaaaaaaaaaaaaaaaaaaaaaaaaaaaaaaaaaaaaaaaaaaaaaa"

/-- A stand-in HMAC for concrete evaluations: every digest is `sig64`,
64 UTF-8 bytes like a real hex SHA-256 digest. -/
def constHmac : String → String → String := fun _ _ => sig64

/-- Payment table for the C1 evaluation: one payment already COMPLETED. -/
def c1Db : Db := [("p1",
  { paymentId := "p1", status := .COMPLETED, briefId := some "b1",
    brandId := "brand-1", expiresAt := 100000, completedAt := some 500,
    transactionHash := none, blockNumber := none, gasUsed := none })]

/-- A correctly signed webhook delivering status FAILED for `p1`. -/
def c1Req : WebhookRequest :=
  { rawBody := "body1", signature := some sig64,
    payload := some
      { paymentId := "p1", status := .FAILED,
        transactionHash := none, blockNumber := none, gasUsed := none } }

/-- C1, the code evaluated at the failing input: the reconciler does not
respect the status transition graph.  A correctly signed webhook carrying
status FAILED for a payment that is already COMPLETED (a terminal status)
is answered 200 and the stored status becomes FAILED: the illegal
terminal transition is silently applied, not rejected, because
`updateStatus` writes the new status unconditionally. -/
theorem terminal_status_overwritten :
    (webhookPOST constHmac (some "sec") c1Db 2000 c1Req).httpStatus = 200
    ∧ (dbLookup (webhookPOST constHmac (some "sec") c1Db 2000 c1Req).db
        "p1").map PaymentRecord.status = some PaymentStatus.FAILED := by
  decide

/-- Payment table for the C2 evaluation: one PENDING payment with an
attached brief. -/
def c2Db : Db := [("p2",
  { paymentId := "p2", status := .PENDING, briefId := some "b2",
    brandId := "brand-2", expiresAt := 100000, completedAt := none,
    transactionHash := none, blockNumber := none, gasUsed := none })]

/-- A correctly signed completion webhook for `p2`. -/
def c2Req : WebhookRequest :=
  { rawBody := "body2", signature := some sig64,
    payload := some
      { paymentId := "p2", status := .COMPLETED,
        transactionHash := some "0xabc", blockNumber := some 10,
        gasUsed := some 21000 } }

/-- C2, the code evaluated at the failing input: delivering the same
verified completion webhook twice fires the downstream generation call on
BOTH deliveries (trigger count 1 each, 2 in total, not exactly one): the
handler fires on every COMPLETED delivery with a `briefId`, with no
idempotency guard.  The stored status is COMPLETED after both deliveries
— that half of the claim does hold. -/
theorem completion_webhook_not_idempotent :
    (webhookPOST constHmac (some "sec") c2Db 100 c2Req).generationTriggers = 1
    ∧ (webhookPOST constHmac (some "sec")
        (webhookPOST constHmac (some "sec") c2Db 100 c2Req).db 200
        c2Req).generationTriggers = 1
    ∧ (dbLookup (webhookPOST constHmac (some "sec")
        (webhookPOST constHmac (some "sec") c2Db 100 c2Req).db 200
        c2Req).db "p2").map PaymentRecord.status = some PaymentStatus.COMPLETED
    ∧ (webhookPOST constHmac (some "sec") c2Db 100 c2Req).generationTriggers
      + (webhookPOST constHmac (some "sec")
          (webhookPOST constHmac (some "sec") c2Db 100 c2Req).db 200
          c2Req).generationTriggers ≠ 1 := by
  decide

/-- Payment table for the C3 evaluation: one PENDING payment that expires
at time 1000. -/
def c3Db : Db := [("p3",
  { paymentId := "p3", status := .PENDING, briefId := none,
    brandId := "brand-3", expiresAt := 1000, completedAt := none,
    transactionHash := none, blockNumber := none, gasUsed := none })]

/-- A correctly signed completion webhook for `p3`. -/
def c3Req : WebhookRequest :=
  { rawBody := "body3", signature := some sig64,
    payload := some
      { paymentId := "p3", status := .COMPLETED,
        transactionHash := some "0xdef", blockNumber := some 11,
        gasUsed := some 21000 } }

/-- C3, the code evaluated at the failing input: a completion webhook
processed at time 2000, after the record's stored `expiresAt` of 1000,
still transitions the record to COMPLETED (stamping `completedAt` 2000):
neither the handler nor `updateStatus` compares any clock against
`expiresAt`, so expiry does not take precedence over a late completion. -/
theorem late_completion_applied :
    (dbLookup c3Db "p3").map PaymentRecord.expiresAt = some 1000
    ∧ (webhookPOST constHmac (some "sec") c3Db 2000 c3Req).httpStatus = 200
    ∧ (dbLookup (webhookPOST constHmac (some "sec") c3Db 2000 c3Req).db
        "p3").map PaymentRecord.status = some PaymentStatus.COMPLETED
    ∧ (dbLookup (webhookPOST constHmac (some "sec") c3Db 2000 c3Req).db
        "p3").map PaymentRecord.completedAt = some (some 2000) := by
  decide

/-- Payment table for the C7 evaluation: a single known payment `p7`. -/
def c7Db : Db := [("p7",
  { paymentId := "p7", status := .PENDING, briefId := none,
    brandId := "brand-7", expiresAt := 100000, completedAt := none,
    transactionHash := none, blockNumber := none, gasUsed := none })]

/-- A correctly signed webhook naming a paymentId absent from the table. -/
def c7Req : WebhookRequest :=
  { rawBody := "body7", signature := some sig64,
    payload := some
      { paymentId := "ghost", status := .COMPLETED,
        transactionHash := none, blockNumber := none, gasUsed := none } }

/-- C7, the code evaluated at the failing input: a correctly signed
webhook for an unknown `paymentId` is answered 500, not 404.
`prisma.payment.update` throws (P2025) when no row matches, the outer
catch answers 500, and the handler's `if (!updatedPayment)` 404 branch is
unreachable.  No row is written and no generation fires. -/
theorem unknown_paymentId_answered_500 :
    dbLookup c7Db "ghost" = none
    ∧ (webhookPOST constHmac (some "sec") c7Db 100 c7Req).httpStatus = 500
    ∧ (webhookPOST constHmac (some "sec") c7Db 100 c7Req).db = c7Db
    ∧ (webhookPOST constHmac (some "sec") c7Db 100 c7Req).generationTriggers
        = 0 := by
  decide

/-- Payment table for the C9 evaluation: a PENDING request that expired at
time 1000 with no payment ever made. -/
def c9Db : Db := [("p9",
  { paymentId := "p9", status := .PENDING, briefId := none,
    brandId := "brand-9", expiresAt := 1000, completedAt := none,
    transactionHash := none, blockNumber := none, gasUsed := none })]

/-- C9, the code evaluated at the failing input: after the expiry of `p9`
(`expiresAt` 1000) passes with no payment, the status GET still answers
the STORED status PENDING, not EXPIRED.  `paymentsGET` takes no clock at
all — the handler never compares `expiresAt` with the current time, and
nothing anywhere in the codebase ever writes EXPIRED except an inbound
webhook that happens to carry that status. -/
theorem get_returns_stored_status_not_expired :
    paymentsGET c9Db (some "p9")
      = GetStatusResponse.ok PaymentStatus.PENDING 1000 none := by
  decide

/-- A webhook request whose `x-x402-signature` header is present but
empty (0 bytes, a byte length different from 64). -/
def c10EmptySigReq : WebhookRequest :=
  { rawBody := "body10e", signature := some "", payload := none }

/-- C10 counterexample: the claim is not true of EVERY request whose
header value has byte length different from 64.  An empty header value
has byte length 0 ≠ 64, yet the handler answers 400, not 500: the JS
falsy guard `!signature` catches the empty string before any signature
comparison runs. -/
theorem empty_signature_answered_400 :
    ("" : String).utf8ByteSize ≠ 64
    ∧ (webhookPOST constHmac (some "sec") [] 0 c10EmptySigReq).httpStatus = 400
    ∧ (webhookPOST constHmac (some "sec") [] 0 c10EmptySigReq).httpStatus
        ≠ 500 := by
  decide

/-- C10 amended: for every inbound webhook request whose
`x-x402-signature` header is present and NON-EMPTY with a UTF-8 byte
length different from 64 — while the recomputed hex HMAC-SHA256 digest
always has 64 bytes, the configured secret being non-empty —
`timingSafeEqual` throws instead of returning false, so the handler
answers 500 rather than 401, with no database write and no generation
trigger.  (The empty header value instead hits the falsy guard and gets
400, see the counterexample.) -/
theorem short_signature_throws_500
    (hmacHex : String → String → String) (secret : String) (db : Db)
    (now : Nat) (req : WebhookRequest) (sig : String)
    (hsig : req.signature = some sig)
    (hne : sig ≠ "")
    (hsec : secret ≠ "")
    (hlen : sig.utf8ByteSize ≠ 64)
    (hhmac : (hmacHex secret req.rawBody).utf8ByteSize = 64) :
    (webhookPOST hmacHex (some secret) db now req).httpStatus = 500
    ∧ (webhookPOST hmacHex (some secret) db now req).db = db
    ∧ (webhookPOST hmacHex (some secret) db now req).generationTriggers = 0 := by
  have hver : verifyX402Signature hmacHex req.rawBody sig secret = .error () := by
    unfold verifyX402Signature timingSafeEqual
    rw [hhmac]
    simp [hlen]
  simp [webhookPOST, hsig, hne, hsec, hver]

/-- A webhook request carrying a 3-byte signature header. -/
def c10Req : WebhookRequest :=
  { rawBody := "body10", signature := some "abc", payload := none }

/-- Witness for the amended C10 at a concrete input: a non-empty 3-byte
signature header gets a 500 response with the table untouched and no
trigger. -/
theorem short_signature_throws_500_witness :
    (webhookPOST constHmac (some "sec") [] 0 c10Req).httpStatus = 500
    ∧ (webhookPOST constHmac (some "sec") [] 0 c10Req).db = []
    ∧ (webhookPOST constHmac (some "sec") [] 0 c10Req).generationTriggers = 0 :=
  short_signature_throws_500 constHmac "sec" [] 0 c10Req "abc" rfl
    (by decide) (by decide) (by decide) (by decide)

end Arcadia
